import Mathlib

/-!
Shallow embedding of the update-orchestration core of the `nova_hub`
repository, together with theorems settling the frozen claims about it.

The embedding covers:
* `src/app_updater/version_manager.py` — semantic version comparison and
  update decision (`parse_version`, `compare_versions`,
  `is_update_available`, `get_app_version_info`);
* `src/app_updater/file_utils.py` — digest computation, integrity check,
  file removal (`calculate_sha256`, `verify_file_integrity`, `remove_file`);
* `src/core/file_utils.py` — best-effort deletion (`delete_file_if_exists`);
* `src/core/config_manager.py` — the local manifest commit
  (`update_local_version`);
* `src/app_updater/updater.py` — the `AppUpdater.update_app` pipeline;
* `src/core/update_worker.py` + `src/ui/main_window.py` — the worker
  pipeline and the UI layer that starts workers and commits versions.

Machine-level conventions of the embedding:
* A file is modelled by the lowercase hex SHA-256 digest of its content
  (the pipelines only ever inspect content through `calculate_sha256`).
  The filesystem is an association list from path to digest, plus a set of
  "locked" paths on which `unlink` raises an `OSError`.
* Python dict entries read with `.get` are modelled as `Option` fields;
  a `.none` field models an absent key (reading it with `d[k]` raises
  `KeyError`).
* External I/O outcomes (the remote store's stream, archive extraction,
  process spawn) are supplied as explicit oracle values.
* Exceptions are modelled with `Except` / explicit result constructors;
  a Python `try/except` is a `match` on that result.
-/

/-- Python exception kinds distinguished by the modelled code paths. -/
inductive PyErr where
  | fileNotFound
  | osError
  | keyError
  | downloadError
  | extractError
  | launchError
deriving DecidableEq, Repr

/-! ### Python string primitives

`str.split(sep)`, `str.strip()`, `str.lower()` and `int(...)` as used by
the version comparator and the manifests, re-implemented structurally over
`List Char` so that every definition reduces in the kernel. -/

/-- Model of Python `s.split(".")`: cut at every dot, keeping empty pieces. -/
def splitDotAux : List Char → List Char → List (List Char)
  | [], acc => [acc.reverse]
  | c :: cs, acc =>
    if c = '.' then acc.reverse :: splitDotAux cs []
    else splitDotAux cs (c :: acc)

/-- Model of Python `version_str.split(".")`. -/
def splitDot (s : String) : List String :=
  (splitDotAux s.toList []).map String.mk

/-- Model of Python `str.strip()` (ASCII whitespace). -/
def pyStrip (s : String) : String :=
  String.mk (((s.toList.dropWhile Char.isWhitespace).reverse.dropWhile
      Char.isWhitespace).reverse)

/-- Model of Python `str.lower()` (ASCII case folding, as used for
hex digests and file-type markers). -/
def pyLower (s : String) : String :=
  String.mk (s.toList.map Char.toLower)

/-- Digit run accepted by Python `int()` after the first digit: further
digits, with single underscores allowed between digits. -/
def pyDigitsAux : List Char → Nat → Option Nat
  | [], acc => some acc
  | '_' :: c :: cs, acc =>
    if c.isDigit then pyDigitsAux cs (acc * 10 + (c.toNat - 48)) else none
  | '_' :: [], _ => none
  | c :: cs, acc =>
    if c.isDigit then pyDigitsAux cs (acc * 10 + (c.toNat - 48)) else none

/-- Nonempty digit run accepted by Python `int()`. -/
def pyDigits : List Char → Option Nat
  | [] => none
  | c :: cs => if c.isDigit then pyDigitsAux cs (c.toNat - 48) else none

/-- Model of Python `int(s)` on a decimal string: surrounding whitespace
stripped, optional sign, then digits (underscore separators allowed);
`none` models a raised `ValueError`. -/
def pyInt (s : String) : Option Int :=
  match (pyStrip s).toList with
  | '-' :: rest => (pyDigits rest).map (fun n => -(n : Int))
  | '+' :: rest => (pyDigits rest).map (fun n => (n : Int))
  | l => (pyDigits l).map (fun n => (n : Int))

/-! ### VersionManager (`src/app_updater/version_manager.py`) -/

/-- All pieces parse as ints or the whole parse fails, like
`tuple(int(p) for p in parts)` raising `ValueError` on any piece. -/
def mapIntOpt : List String → Option (List Int)
  | [] => some []
  | s :: ss =>
    match pyInt s, mapIntOpt ss with
    | some n, some ns => some (n :: ns)
    | _, _ => none

/-- `VersionManager.compare_versions.parse_version`: split on dots, keep at
most the first three components, parse each with `int`; on any failure the
whole version is treated as `(0, 0, 0)`. -/
def parse_version (version_str : String) : List Int :=
  match mapIntOpt ((splitDot version_str).take 3) with
  | some ns => ns
  | none => [0, 0, 0]

/-- Python tuple `<` on integer tuples: lexicographic, a strict prefix is
smaller than its extensions. -/
def tupleLt : List Int → List Int → Bool
  | _, [] => false
  | [], _ :: _ => true
  | a :: as, b :: bs => a < b || (a == b && tupleLt as bs)

/-- `VersionManager.compare_versions`: −1 when local < remote, 1 when
local > remote, 0 otherwise, under Python tuple comparison of the parses. -/
def compare_versions (local_version remote_version : String) : Int :=
  let l := parse_version local_version
  let r := parse_version remote_version
  if tupleLt l r then -1
  else if tupleLt r l then 1
  else 0

/-- A remote manifest entry (an element of `app_version.json`'s `apps`).
Fields the code reads with `.get` are `Option`s; `none` is an absent key. -/
structure RemoteApp where
  id : Option String
  name : Option String
  version : Option String
  file_type : Option String
  filename : Option String
  sha256 : Option String
deriving DecidableEq, Repr

/-- `VersionManager.get_app_version_info`: first entry whose `id` equals
the requested app id. -/
def get_app_version_info (apps_versions : List RemoteApp) (app_id : String) :
    Option RemoteApp :=
  apps_versions.find? (fun app => app.id == some app_id)

/-- `VersionManager.is_update_available`: false when the app has no remote
entry, otherwise true iff `compare_versions(local, remote) == -1` where the
remote version defaults to `"0.0.0"`. -/
def is_update_available (apps_versions : List RemoteApp) (app_id : String)
    (local_version : String) : Bool :=
  match get_app_version_info apps_versions app_id with
  | none => false
  | some remote_info =>
    let remote_version := remote_info.version.getD "0.0.0"
    compare_versions local_version remote_version == -1

example : parse_version "1.2" = [1, 2] := by decide
example : parse_version "1.2.0" = [1, 2, 0] := by decide
example : compare_versions "1.2" "1.2.0" = -1 := by decide
example : compare_versions "1.0.0" "1.1.0" = -1 := by decide
example : compare_versions "2.0.0" "1.1.0" = 1 := by decide
example : compare_versions "abc" "0.0.0" = 0 := by decide

/-! ### Filesystem model

The staging area seen by the pipelines. A file is identified by its path
and represented by the lowercase hex SHA-256 digest of its content; the
code under scrutiny never inspects content except through
`calculate_sha256`. `locked` is the set of paths whose `unlink` raises
(e.g. the file is held open by another process on Windows). -/

/-- The staging filesystem: path -> digest-of-content, plus the paths on
which deletion raises. -/
structure Fs where
  files : List (String × String)
  locked : List String
deriving DecidableEq, Repr

/-- Digest of the content stored at `path`, `none` when no such file. -/
def Fs.digestOf (fs : Fs) (path : String) : Option String :=
  fs.files.lookup path

/-- Model of `Path.exists()` on the staging filesystem. -/
def Fs.pathExists (fs : Fs) (path : String) : Bool :=
  (fs.files.lookup path).isSome

/-- Write a file (create or overwrite) whose content has digest `digest`. -/
def Fs.setFile (fs : Fs) (path digest : String) : Fs :=
  { fs with files := (path, digest) :: fs.files.filter (fun p => p.1 != path) }

/-- Remove the entry at `path` from the file table. -/
def Fs.eraseFile (fs : Fs) (path : String) : Fs :=
  { fs with files := fs.files.filter (fun p => p.1 != path) }

/-- Model of `Path.unlink()`: raises `OSError` on a locked path, otherwise
removes the file. -/
def unlink (fs : Fs) (path : String) : Except PyErr Fs :=
  if fs.locked.contains path then .error .osError
  else .ok (fs.eraseFile path)

/-! ### File utilities (`src/app_updater/file_utils.py`) -/

/-- `calculate_sha256`: empty string when the file does not exist,
otherwise the hex digest of the file's content. -/
def calculate_sha256 (fs : Fs) (filepath : String) : String :=
  match fs.digestOf filepath with
  | none => ""
  | some d => d

/-- `verify_file_integrity`: compare the computed digest with the
lowercased expected hex string. -/
def verify_file_integrity (fs : Fs) (filepath : String)
    (expected_sha256 : String) : Bool :=
  calculate_sha256 fs filepath == pyLower expected_sha256

/-- `remove_file` (`src/app_updater/file_utils.py`): unlink when the file
exists; a failing unlink is logged and then re-raised to the caller. -/
def remove_file (fs : Fs) (filepath : String) : Except PyErr Fs :=
  if fs.pathExists filepath then unlink fs filepath
  else .ok fs

/-- `delete_file_if_exists` (`src/core/file_utils.py`): unlink when the
file exists; a failing unlink is logged and swallowed, so the caller
always gets a normal return. -/
def delete_file_if_exists (fs : Fs) (path : String) : Fs :=
  if fs.pathExists path then
    match unlink fs path with
    | .ok fs2 => fs2
    | .error _ => fs
  else fs

/-! ### Local manifest (`src/core/config_manager.py`)

`AppConfigManager` holds the parsed `apps` list in memory and rewrites the
whole document to `config_path` on `update_local_version`. `disk` models
the persisted copy. -/

/-- A local manifest entry (an element of `appconfig.json`'s `apps`). -/
structure LocalApp where
  id : Option String
  name : Option String
  version : Option String
  local_path : Option String
deriving DecidableEq, Repr

/-- In-memory plus on-disk state of `AppConfigManager`. -/
structure ConfigState where
  apps : List LocalApp
  disk : List LocalApp
deriving DecidableEq, Repr

/-- `AppConfigManager.get_app`: first entry whose `id` equals `app_id`. -/
def ConfigState.get_app (cfg : ConfigState) (app_id : String) :
    Option LocalApp :=
  cfg.apps.find? (fun app => app.id == some app_id)

/-- The loop body of `update_local_version`: walk the list, set `version`
on the first entry whose id matches, then stop; reading `app["id"]` from
an entry without an id raises `KeyError`. -/
def updateAppsList : List LocalApp → String → Option String →
    Except PyErr (List LocalApp)
  | [], _, _ => .ok []
  | a :: as, app_id, v =>
    match a.id with
    | none => .error .keyError
    | some i =>
      if i == app_id then .ok ({ a with version := v } :: as)
      else
        match updateAppsList as app_id v with
        | .ok rest => .ok (a :: rest)
        | .error e => .error e

/-- `AppConfigManager.update_local_version`: update the matching entry in
memory (if any), then rewrite the whole document to disk; there is no
not-found check, an absent id simply leaves the list unchanged. -/
def update_local_version (cfg : ConfigState) (app_id : String)
    (new_version : Option String) : Except PyErr ConfigState :=
  match updateAppsList cfg.apps app_id new_version with
  | .ok apps2 => .ok { apps := apps2, disk := apps2 }
  | .error e => .error e

/-! ### The AppUpdater pipeline (`src/app_updater/updater.py`)

`AppUpdater.update_app` runs check → download → verify → apply for one
app. Its own config manager (`src/app_updater/config_manager.py`) only
mutates the apps list in memory, so the pipeline state carries a plain
list for it. Outcomes of the external store and of process spawning are
supplied by an `UpdateEnv` oracle. -/

/-- `UpdateStatus` from `src/app_updater/updater.py`. -/
inductive UpdateStatus where
  | idle
  | checking
  | downloading
  | verifying
  | extracting
  | installing
  | completed
  | error
  | cancelled
deriving DecidableEq, Repr

/-- Outcome of one `GoogleDriveClient.download_app_file` call.
`netFailure` carries the digest of the partial content that was streamed
before the transport error. -/
inductive DownloadResult where
  | ok (digest : String)
  | notFound
  | netFailure (partialDigest : String)
deriving DecidableEq, Repr

/-- `GoogleDriveClient.download_app_file` (via `download_file_by_name` and
`_download_file_by_id`): on success the file is written whole; when the
listing finds no file id a `FileNotFoundError` is raised before anything
is written; on a transport error the partial file has been written and the
client unlinks it before re-raising (if that unlink itself raises, the new
exception propagates and the partial file stays). The first component is
the exception reaching the caller, if any. -/
def download_app_file (fs : Fs) (dest : String) :
    DownloadResult → Option PyErr × Fs
  | .ok d => (none, fs.setFile dest d)
  | .notFound => (some .fileNotFound, fs)
  | .netFailure pd =>
    let fs1 := fs.setFile dest pd
    match unlink fs1 dest with
    | .ok fs2 => (some .downloadError, fs2)
    | .error e => (some e, fs1)

/-- `AppConfigManager.get_app_by_id` (`src/app_updater/config_manager.py`). -/
def get_app_by_id (apps_config : List LocalApp) (app_id : String) :
    Option LocalApp :=
  apps_config.find? (fun app => app.id == some app_id)

/-- The in-place `app["version"] = remote_version` on the first entry
found by `get_app_by_id`. -/
def setVersionFirst : List LocalApp → String → String → List LocalApp
  | [], _, _ => []
  | a :: as, app_id, v =>
    if a.id == some app_id then { a with version := some v } :: as
    else a :: setVersionFirst as app_id v

/-- `AppUpdater._update_local_version`: look up the remote version
(default `"0.0.0"`) and write it into the in-memory config entry;
no-op when either lookup fails. Nothing is persisted. -/
def au_update_local_version (config : List LocalApp)
    (remote : List RemoteApp) (app_id : String) : List LocalApp :=
  match get_app_version_info remote app_id with
  | none => config
  | some remote_info =>
    let remote_version := remote_info.version.getD "0.0.0"
    match get_app_by_id config app_id with
    | none => config
    | some _ => setVersionFirst config app_id remote_version

/-- State threaded through one `AppUpdater.update_app` run. -/
structure AppUpdaterState where
  fs : Fs
  config : List LocalApp
  remote : List RemoteApp
  status : UpdateStatus
  message : String
deriving DecidableEq, Repr

/-- Oracle for the external effects of one `update_app` run: the store's
download outcome, whether `extract_rar` succeeds, whether
`run_exe_installer`'s `Popen` succeeds. -/
structure UpdateEnv where
  download : DownloadResult
  extract_ok : Bool
  install_ok : Bool
deriving DecidableEq, Repr

/-- Result of a pipeline stage: a returned boolean, or an exception that
escapes to `update_app`'s outermost `except` handler. -/
inductive PipeResult where
  | done (success : Bool) (st : AppUpdaterState)
  | raised (e : PyErr) (st : AppUpdaterState)
deriving DecidableEq, Repr

/-- Python `f"{x}"` on an optional string: `None` prints as `"None"`. -/
def pyStrOfOptStr : Option String → String
  | none => "None"
  | some s => s

/-- The staging path used by `update_app`: the drive client's default
download directory `temp` joined with
`remote_info.get("filename", f"{app_id}.{remote_info.get('file_type')}")`. -/
def staged_path (app_id : String) (remote_info : RemoteApp) : String :=
  "temp/" ++ remote_info.filename.getD
    (app_id ++ "." ++ pyStrOfOptStr remote_info.file_type)

/-- `AppUpdater._process_rar_update`: extract into the app directory,
delete the staged archive, commit the new version in memory. Any raise
inside the `try` (a failed extraction, or a failing cleanup) lands in the
`except` branch, which sets an error status, deletes the staged file
(re-raising if that deletion itself fails) and returns `False`. -/
def process_rar_update (st0 : AppUpdaterState) (env : UpdateEnv)
    (app_id rar_path : String) : PipeResult :=
  let st := { st0 with status := .extracting,
                       message := "Extracting " ++ rar_path ++ "..." }
  if st.fs.pathExists rar_path && env.extract_ok then
    match remove_file st.fs rar_path with
    | .ok fs2 =>
      let config2 := au_update_local_version st.config st.remote app_id
      .done true { st with fs := fs2, config := config2,
                           status := .completed,
                           message := app_id ++ " updated successfully" }
    | .error _ =>
      let st2 := { st with status := .error,
                           message := "Extraction failed" }
      match remove_file st2.fs rar_path with
      | .ok fs3 => .done false { st2 with fs := fs3 }
      | .error e => .raised e st2
  else
    let st2 := { st with status := .error, message := "Extraction failed" }
    match remove_file st2.fs rar_path with
    | .ok fs3 => .done false { st2 with fs := fs3 }
    | .error e => .raised e st2

/-- `AppUpdater._process_exe_update`: launch the staged installer and
report completion immediately; the local version is not committed on this
path. A failed spawn sets an error status, deletes the staged installer
(re-raising if that deletion fails) and returns `False`. -/
def process_exe_update (st0 : AppUpdaterState) (env : UpdateEnv)
    (app_id exe_path : String) : PipeResult :=
  let st := { st0 with status := .installing,
                       message := "Running installer for " ++ app_id ++ "..." }
  if st.fs.pathExists exe_path && env.install_ok then
    .done true { st with status := .completed,
                         message := app_id ++
                           " installer launched. Please complete the installation." }
  else
    let st2 := { st with status := .error,
                         message := "Failed to launch installer" }
    match remove_file st2.fs exe_path with
    | .ok fs3 => .done false { st2 with fs := fs3 }
    | .error e => .raised e st2

/-- The file-type fork at the end of `update_app`: `rar` and `exe` go to
their processors, anything else sets the unsupported-file-type error,
deletes the downloaded file and returns `False`. -/
def dispatch_file_type (st : AppUpdaterState) (env : UpdateEnv)
    (app_id dest file_type : String) : PipeResult :=
  if file_type == "rar" then process_rar_update st env app_id dest
  else if file_type == "exe" then process_exe_update st env app_id dest
  else
    let st2 := { st with status := .error,
                         message := "Unsupported file type: " ++ file_type }
    match remove_file st2.fs dest with
    | .ok fs3 => .done false { st2 with fs := fs3 }
    | .error e => .raised e st2

/-- The verification block of `update_app`: when an expected checksum is
present and does not match, set the integrity-failure error, delete the
staged file and return `False`; otherwise (match, or empty expected
checksum, which is only logged) fall through to the file-type fork. -/
def verify_and_dispatch (st : AppUpdaterState) (env : UpdateEnv)
    (app_id dest expected_sha256 file_type : String) : PipeResult :=
  let st := { st with status := .verifying,
                      message := "Verifying file integrity..." }
  if expected_sha256 != "" &&
      !(verify_file_integrity st.fs dest expected_sha256) then
    let st2 := { st with status := .error,
                         message := "File integrity check failed" }
    match remove_file st2.fs dest with
    | .ok fs3 => .done false { st2 with fs := fs3 }
    | .error e => .raised e st2
  else
    dispatch_file_type st env app_id dest file_type

/-- The body of `AppUpdater.update_app` inside its outermost `try`. -/
def update_app_core (st0 : AppUpdaterState) (env : UpdateEnv)
    (app_id : String) : PipeResult :=
  let st := { st0 with status := .checking,
                       message := "Checking " ++ app_id ++ "..." }
  match get_app_version_info st.remote app_id with
  | none =>
    .done false { st with status := .error,
                          message := "No remote info for " ++ app_id }
  | some remote_info =>
    let expected_sha256 := remote_info.sha256.getD ""
    let file_type := pyLower (remote_info.file_type.getD "unknown")
    let dest := staged_path app_id remote_info
    let st := { st with status := .downloading,
                        message := "Downloading..." }
    match download_app_file st.fs dest env.download with
    | (some _, fs1) =>
      .done false { st with fs := fs1, status := .error,
                            message := "Download failed" }
    | (none, fs1) =>
      verify_and_dispatch { st with fs := fs1 } env app_id dest
        expected_sha256 file_type

/-- `AppUpdater.update_app`: the outermost `except` converts any escaped
exception into an error status and a `False` return. -/
def update_app (st0 : AppUpdaterState) (env : UpdateEnv)
    (app_id : String) : Bool × AppUpdaterState :=
  match update_app_core st0 env app_id with
  | .done b st => (b, st)
  | .raised _ st =>
    (false, { st with status := .error, message := "Update failed" })

/-! ### The core worker pipeline (`src/core/update_worker.py`)

`UpdateWorker.run` is the other update engine in the repository: delete
the stale staging file, download with progress, then extract or launch.
It emits one terminal `finished(message, success)`. Note that this
variant performs no checksum verification, that `run_exe`
(`src/core/file_utils.py`) catches every spawn failure internally, and
that the `except` handler around the whole run does not delete a partial
download. -/

/-- `VersionManager.get_remote_filename` (`src/core/version_manager.py`):
use the `filename` field, otherwise derive `"{id}.{file_type}"`; reading
a missing `id`/`file_type` key raises `KeyError`. -/
def get_remote_filename (app_info : RemoteApp) : Except PyErr String :=
  match app_info.filename with
  | some f => .ok f
  | none =>
    match app_info.id, app_info.file_type with
    | some i, some ft => .ok (i ++ "." ++ pyLower ft)
    | _, _ => .error .keyError

/-- `VersionManager.is_update_needed` (`src/core/version_manager.py`):
plain string inequality of the stripped versions. -/
def is_update_needed (local_version remote_version : String) : Bool :=
  pyStrip local_version != pyStrip remote_version

/-- Outcome of the artifact stream in `_download_with_progress`:
a full download, a transport error after part of the file was written
(carrying the partial content's digest), a listing that found no file id
(raised before anything is written), or a non-success HTTP response
(raised before the destination is opened). -/
inductive StreamResult where
  | complete (digest : String)
  | midFailure (partialDigest : String)
  | listNotFound
  | httpError
deriving DecidableEq, Repr

/-- Oracle for one worker run: the stream outcome, whether `extract_rar`
succeeds, and whether the installer `Popen` succeeds. `spawn_ok` is
recorded but cannot influence the run because `run_exe` catches and logs
every spawn failure without re-raising. -/
structure WorkerEnv where
  stream : StreamResult
  extract_ok : Bool
  spawn_ok : Bool
deriving DecidableEq, Repr

/-- The terminal `finished` signal of one worker run plus the staging
filesystem it leaves behind. -/
structure WorkerResult where
  message : String
  success : Bool
  fs : Fs
deriving DecidableEq, Repr

/-- The `finished` message the worker's `except` handler emits. -/
def workerErrMsg (app_config : LocalApp) : String :=
  "Error updating " ++ app_config.name.getD "Unknown App"

/-- `UpdateWorker.run`: the whole body runs inside one `try`; every raise
lands in the handler, which emits `finished(error message, False)` and
performs no cleanup. Directory-level effects (the old app folder removed
before a rar update, the extracted tree) are outside the staging `Fs`. -/
def worker_run (app_config : LocalApp) (remote_info : RemoteApp)
    (env : WorkerEnv) (fs0 : Fs) : WorkerResult :=
  match app_config.name with
  | none => { message := workerErrMsg app_config, success := false, fs := fs0 }
  | some app_name =>
    match remote_info.file_type with
    | none => { message := workerErrMsg app_config, success := false, fs := fs0 }
    | some ft =>
      let file_type := pyLower ft
      match get_remote_filename remote_info with
      | .error _ =>
        { message := workerErrMsg app_config, success := false, fs := fs0 }
      | .ok filename =>
        let dest := "apps/" ++ filename
        let fs1 := delete_file_if_exists fs0 dest
        match env.stream with
        | .listNotFound =>
          { message := workerErrMsg app_config, success := false, fs := fs1 }
        | .httpError =>
          { message := workerErrMsg app_config, success := false, fs := fs1 }
        | .midFailure pd =>
          { message := workerErrMsg app_config, success := false,
            fs := fs1.setFile dest pd }
        | .complete d =>
          let fs2 := fs1.setFile dest d
          if file_type == "rar" then
            if env.extract_ok then
              { message := "App " ++ app_name ++ " updated successfully.",
                success := true, fs := delete_file_if_exists fs2 dest }
            else
              { message := workerErrMsg app_config, success := false, fs := fs2 }
          else if file_type == "exe" then
            { message := "Installer for " ++ app_name ++ " has been started.",
              success := true, fs := fs2 }
          else
            { message := "Unknown file type for " ++ app_name ++ ": " ++ file_type,
              success := false, fs := fs2 }

/-! ### The hub UI layer (`src/ui/main_window.py`)

`MainWindow` builds one table row per permitted app with an Update
button, starts an `UpdateWorker` when an enabled button is clicked
(disabling that button), and on the worker's `finished` signal re-enables
the button, commits the remote version through
`AppConfigManager.update_local_version` on success, and repopulates the
whole table (all buttons recreated, enabled whenever remote info exists).
We model it as a transition system whose events are button clicks and
worker completions; a worker's effects are applied atomically at its
completion event, one legal interleaving of the real system. A `click`
on a disabled or absent button is not delivered (Qt drops it). `none`
marks an execution the model does not follow (an uncaught exception in a
slot). -/

/-- One in-flight worker: its app id and the table generation its Update
button belongs to (`_on_worker_finished` holds a reference to the button
that was clicked, which repopulation replaces). -/
structure Session where
  app_id : String
  btnGen : Nat
deriving DecidableEq, Repr

/-- State of the main window: current table generation, the Update
buttons of the current table (app id, enabled), the in-flight workers,
the shared config manager, the fetched remote snapshot, the logged-in
user's permitted app ids, and the staging filesystem. -/
structure HubState where
  gen : Nat
  buttons : List (String × Bool)
  sessions : List Session
  config : ConfigState
  remote : List RemoteApp
  permissions : List String
  fs : Fs
deriving DecidableEq, Repr

/-- The permission filter of `_populate_table`:
`[app for app in all_apps if app["id"] in user_permissions]`; reading a
missing id raises `KeyError`. Pairs each kept entry with its id. -/
def filterPermitted : List LocalApp → List String →
    Except PyErr (List (String × LocalApp))
  | [], _ => .ok []
  | a :: as, perms =>
    match a.id with
    | none => .error .keyError
    | some i =>
      match filterPermitted as perms with
      | .error e => .error e
      | .ok rest => .ok (if perms.contains i then (i, a) :: rest else rest)

/-- `_populate_table` as far as Update buttons go: one button per
permitted app, enabled exactly when remote version info exists. -/
def populate_buttons (cfg : ConfigState) (remote : List RemoteApp)
    (perms : List String) : Except PyErr (List (String × Bool)) :=
  match filterPermitted cfg.apps perms with
  | .error e => .error e
  | .ok apps =>
    .ok (apps.map (fun p => (p.1, (get_app_version_info remote p.1).isSome)))

/-- Set the enabled flag of the buttons for `app_id` in the current table. -/
def setButton (btns : List (String × Bool)) (app_id : String) (b : Bool) :
    List (String × Bool) :=
  btns.map (fun p => if p.1 == app_id then (p.1, b) else p)

/-- Remove the first in-flight session with the given app id. -/
def removeFirstSession : List Session → String → List Session
  | [], _ => []
  | s :: ss, i => if s.app_id == i then ss else s :: removeFirstSession ss i

/-- `_on_update_clicked`, guarded by Qt's click delivery: nothing happens
unless the current table has an enabled Update button for `app_id`. The
handler re-reads the captured app dict (aliased into the config manager)
and the captured remote entry, shows an up-to-date box and stops when
`is_update_needed` is false, and otherwise disables the button and starts
a worker for the app. -/
def hubClick (st : HubState) (app_id : String) : Option HubState :=
  match st.buttons.lookup app_id with
  | some true =>
    match st.config.get_app app_id with
    | none => some st
    | some a =>
      match get_app_version_info st.remote app_id with
      | none => some st
      | some remote_info =>
        let local_version := a.version.getD ""
        let remote_version := remote_info.version.getD ""
        if !(is_update_needed local_version remote_version) then some st
        else
          some { st with
            buttons := setButton st.buttons app_id false,
            sessions := st.sessions ++ [{ app_id := app_id, btnGen := st.gen }] }
  | _ => some st

/-- A worker for `app_id` completes: run the worker against the current
shared state, then `_on_worker_finished`: re-enable the remembered button
(which only affects the table if it has not been repopulated since),
and on success commit the remote version via `update_local_version` and
repopulate the table. -/
def hubFinish (st : HubState) (app_id : String) (env : WorkerEnv) :
    Option HubState :=
  match st.sessions.find? (fun s => s.app_id == app_id) with
  | none => some st
  | some s =>
    match st.config.get_app app_id, get_app_version_info st.remote app_id with
    | some a, some r =>
      let wr := worker_run a r env st.fs
      let buttons1 :=
        if s.btnGen == st.gen then setButton st.buttons app_id true
        else st.buttons
      let sessions1 := removeFirstSession st.sessions app_id
      if wr.success then
        match update_local_version st.config app_id r.version with
        | .error _ => none
        | .ok cfg2 =>
          match populate_buttons cfg2 st.remote st.permissions with
          | .error _ => none
          | .ok btns2 =>
            some { st with gen := st.gen + 1, buttons := btns2,
                           sessions := sessions1, config := cfg2, fs := wr.fs }
      else
        some { st with buttons := buttons1, sessions := sessions1, fs := wr.fs }
    | _, _ => none

/-- An externally observable event of the hub UI. -/
inductive HubEvent where
  | click (app_id : String)
  | finish (app_id : String) (env : WorkerEnv)

/-- One step of the hub transition system. -/
def hubStep (st : HubState) : HubEvent → Option HubState
  | .click i => hubClick st i
  | .finish i env => hubFinish st i env

/-- Run a sequence of hub events. -/
def hubRun (st : HubState) : List HubEvent → Option HubState
  | [] => some st
  | e :: es =>
    match hubStep st e with
    | none => none
    | some st2 => hubRun st2 es

/-- Number of in-flight update sessions for one app id. -/
def activeSessions (st : HubState) (app_id : String) : Nat :=
  (st.sessions.filter (fun s => s.app_id == app_id)).length

/-! ### Concrete fixtures used by the scenario theorems -/

/-- Local manifest entry of the end-to-end scenario. -/
def fooLocal : LocalApp :=
  { id := some "foo", name := some "foo", version := some "1.0.0",
    local_path := none }

/-- Remote manifest entry of the end-to-end scenario. -/
def fooRemote : RemoteApp :=
  { id := some "foo", name := none, version := some "1.1.0",
    file_type := some "exe", filename := none, sha256 := some "deadbeef" }

/-- Hub state right after login for the end-to-end scenario. -/
def e2eInit : HubState :=
  { gen := 0, buttons := [("foo", true)], sessions := [],
    config := { apps := [fooLocal], disk := [fooLocal] },
    remote := [fooRemote], permissions := ["foo"],
    fs := { files := [], locked := [] } }

/-- Worker oracle where every external effect succeeds and the streamed
file's digest is `"deadbeef"`. -/
def e2eEnv : WorkerEnv :=
  { stream := .complete "deadbeef", extract_ok := true, spawn_ok := true }

/-- The end-to-end scenario: the user clicks Update for `foo` and the
worker completes. -/
def e2eEvents : List HubEvent := [.click "foo", .finish "foo" e2eEnv]

/-- Two permitted apps with updates available, both of installer type. -/
def appA : LocalApp :=
  { id := some "appA", name := some "App A", version := some "1.0.0",
    local_path := none }

/-- Second app of the two-app scenario. -/
def appB : LocalApp :=
  { id := some "appB", name := some "App B", version := some "1.0.0",
    local_path := none }

/-- Remote entry for `appA`. -/
def remA : RemoteApp :=
  { id := some "appA", name := none, version := some "2.0.0",
    file_type := some "exe", filename := some "appA.exe", sha256 := none }

/-- Remote entry for `appB`. -/
def remB : RemoteApp :=
  { id := some "appB", name := none, version := some "2.0.0",
    file_type := some "exe", filename := some "appB.exe", sha256 := none }

/-- Hub state right after login for the two-app scenario. -/
def twoAppInit : HubState :=
  { gen := 0, buttons := [("appA", true), ("appB", true)], sessions := [],
    config := { apps := [appA, appB], disk := [appA, appB] },
    remote := [remA, remB], permissions := ["appA", "appB"],
    fs := { files := [], locked := [] } }

/-- The overlap trace: updates for `appA` and `appB` are started, `appA`
finishes successfully (repopulating the table), and the freshly recreated
Update button for the still-running `appB` is clicked again. -/
def overlapEvents : List HubEvent :=
  [.click "appA", .click "appB", .finish "appA" e2eEnv, .click "appB"]

/-! ### Helper lemmas about the filesystem model -/

/-- After `setFile`, the written path holds the written digest. -/
theorem digestOf_setFile_self (fs : Fs) (p d : String) :
    (fs.setFile p d).digestOf p = some d := by
  simp [Fs.setFile, Fs.digestOf, List.lookup]

/-- Raw-lookup form of `digestOf_setFile_self`. -/
theorem lookup_setFile_self (fs : Fs) (p d : String) :
    List.lookup p (fs.setFile p d).files = some d := by
  simp [Fs.setFile, List.lookup]

/-- Looking up a key in a list from which it was filtered out yields
nothing. -/
theorem lookup_filter_ne (l : List (String × String)) (p : String) :
    List.lookup p (l.filter (fun q => q.1 != p)) = none := by
  induction l with
  | nil => rfl
  | cons a l ih =>
    by_cases h : a.1 = p
    · simpa [List.filter, h] using ih
    · have hb : (a.1 != p) = true := by simp [h]
      have hpa : (p == a.1) = false := by
        simp [Ne.symm h]
      simp [List.filter, hb, List.lookup, ih, hpa]

/-- After `eraseFile`, the erased path holds nothing. -/
theorem digestOf_eraseFile_self (fs : Fs) (p : String) :
    (fs.eraseFile p).digestOf p = none := by
  simp [Fs.eraseFile, Fs.digestOf, lookup_filter_ne]

/-- `setFile` does not change the locked set. -/
theorem locked_setFile (fs : Fs) (p d : String) :
    (fs.setFile p d).locked = fs.locked := rfl

/-- `remove_file` on an unlocked existing file removes it. -/
theorem remove_file_unlocked (fs : Fs) (p : String)
    (h : fs.locked.contains p = false) :
    remove_file fs p = .ok (if fs.pathExists p then fs.eraseFile p else fs) := by
  have hmem : p ∉ fs.locked := by simpa using h
  by_cases he : fs.pathExists p
  · simp [remove_file, he, unlink, hmem]
  · simp [remove_file, he]

/-- After `setFile`, the written path exists. -/
theorem pathExists_setFile_self (fs : Fs) (p d : String) :
    (fs.setFile p d).pathExists p = true := by
  simp [Fs.pathExists, Fs.setFile, List.lookup]

/-- A Python tuple is strictly below every proper extension of itself. -/
theorem tupleLt_append (ns : List Int) (n : Int) (ms : List Int) :
    tupleLt ns (ns ++ n :: ms) = true := by
  induction ns with
  | nil => rfl
  | cons a as ih => simp [tupleLt, ih]

/-! ### Claim theorems -/

/-- C3 — counterexample. The claim asserts that missing dot components are
padded with 0 so that `compare_versions "1.2" "1.2.0" == 0`; in the code
`parse_version` keeps the 2-tuple `(1, 2)` unpadded and Python tuple
comparison places a strict prefix below its extensions, so the comparison
returns −1, not 0. -/
theorem compare_versions_no_padding_counterexample :
    compare_versions "1.2" "1.2.0" = -1 ∧ compare_versions "1.2" "1.2.0" ≠ 0 := by
  decide

/-- C3 (amended) — `parse_version` keeps at most the first three
components and does not pad missing ones: a version with fewer components
compares as a Python tuple prefix, strictly below every proper extension
(`tupleLt_append`), so `compare_versions "1.2" "1.2.0" = -1` rather
than 0, while the induced order still satisfies
(1,0,0) < (1,1,0) < (2,0,0). -/
theorem compare_versions_prefix_order :
    (∀ (ns : List Int) (n : Int) (ms : List Int),
        tupleLt ns (ns ++ n :: ms) = true) ∧
    parse_version "1.2" = [1, 2] ∧
    parse_version "1.2.0" = [1, 2, 0] ∧
    compare_versions "1.2" "1.2.0" = -1 ∧
    compare_versions "1.2" "1.2" = 0 ∧
    compare_versions "1.0.0" "1.1.0" = -1 ∧
    compare_versions "1.1.0" "2.0.0" = -1 ∧
    compare_versions "1.0.0" "2.0.0" = -1 ∧
    compare_versions "1.1.0" "1.0.0" = 1 ∧
    compare_versions "2.0.0" "1.1.0" = 1 ∧
    compare_versions "2.0.0" "2.0.0" = 0 := by
  refine ⟨tupleLt_append, ?_⟩
  decide

/-- C6 — for an app whose remote entry exists and carries version `v`,
`is_update_available` returns true exactly when
`compare_versions local v == -1`. -/
theorem is_update_available_iff_compare (remote : List RemoteApp)
    (app_id local_version v : String) (e : RemoteApp)
    (hfound : get_app_version_info remote app_id = some e)
    (hv : e.version = some v) :
    is_update_available remote app_id local_version
      = (compare_versions local_version v == -1) := by
  simp [is_update_available, hfound, hv]

/-- Witness for `is_update_available_iff_compare` at the end-to-end
fixture. -/
theorem is_update_available_iff_compare_witness :
    is_update_available [fooRemote] "foo" "1.0.0"
      = (compare_versions "1.0.0" "1.1.0" == -1) :=
  is_update_available_iff_compare [fooRemote] "foo" "1.0.0" "1.1.0" fooRemote
    (by decide) (by decide)

/-- Digest of a zero-byte file, a file that genuinely exists on disk. -/
def emptyFileDigest : String :=
  "e3b0c44298fc1c149afbf4c8996fb92427ae41e4649b934ca495991b7852b855"

/-- A staging filesystem holding one downloaded installer. -/
def stagedFs : Fs :=
  { files := [("temp/foo.exe", emptyFileDigest)], locked := [] }

/-- C5 — counterexample. The claim asserts `verify_file_integrity` returns
true for every path when the expected checksum is empty; on an existing
file the computed digest is a 64-character hex string, which is compared
against the lowercased empty string and the function returns false. The
empty-checksum skip lives in `update_app`'s caller-side guard instead. -/
theorem verify_empty_expected_is_false_on_existing_file :
    verify_file_integrity stagedFs "temp/foo.exe" "" = false := by decide

/-- C5 (amended) — `verify_file_integrity` with an empty expected checksum
just compares the digest against `""` (false for any existing file); the
skip-on-empty gate is implemented in `update_app`, whose verification
block falls straight through to the file-type dispatch when the expected
checksum is the empty string. -/
theorem verify_gate_empty_checksum (fs : Fs) (p d : String)
    (st : AppUpdaterState) (env : UpdateEnv) (app_id dest ft : String)
    (h : fs.digestOf p = some d) :
    verify_file_integrity fs p "" = (d == "") ∧
    verify_and_dispatch st env app_id dest "" ft =
      dispatch_file_type
        { st with status := .verifying,
                  message := "Verifying file integrity..." }
        env app_id dest ft := by
  constructor
  · simp [verify_file_integrity, calculate_sha256, h]
    rfl
  · rfl

/-- Witness for `verify_gate_empty_checksum` at the staged-installer
fixture. -/
theorem verify_gate_empty_checksum_witness :
    verify_file_integrity stagedFs "temp/foo.exe" "" = (emptyFileDigest == "") :=
  (verify_gate_empty_checksum stagedFs "temp/foo.exe" emptyFileDigest
    { fs := stagedFs, config := [], remote := [], status := .idle, message := "" }
    { download := .ok emptyFileDigest, extract_ok := true, install_ok := true }
    "foo" "temp/foo.exe" "exe" (by decide)).1

/-- `update_local_version`'s loop leaves the list untouched and raises
nothing when every entry has an id and none matches. -/
theorem updateAppsList_absent (l : List LocalApp) (app_id : String)
    (v : Option String)
    (h : ∀ a ∈ l, a.id ≠ none ∧ a.id ≠ some app_id) :
    updateAppsList l app_id v = .ok l := by
  induction l with
  | nil => rfl
  | cons a as ih =>
    obtain ⟨h1, h2⟩ := h a (List.mem_cons_self a as)
    have hrest := ih (fun b hb => h b (List.mem_cons_of_mem a hb))
    match hid : a.id with
    | none => exact absurd hid h1
    | some i =>
      have hne : i ≠ app_id := fun heq => h2 (by rw [hid, heq])
      simp [updateAppsList, hid, hne, hrest]

/-- Config fixture with a single app, used against an absent id. -/
def oneAppConfig : ConfigState := { apps := [appA], disk := [appA] }

/-- C7 — counterexample. The claim asserts `update_local_version` fails
with a not-found error when the app id is absent; the code's loop simply
finds no match and the method rewrites the unchanged manifest and returns
normally. -/
theorem update_local_version_absent_returns_normally :
    update_local_version oneAppConfig "ghost" (some "2.0.0")
      = .ok { apps := [appA], disk := [appA] } := rfl

/-- C7 (amended) — for an app id carried by no manifest entry (and every
entry carrying an id), `update_local_version` raises nothing: it returns
normally and persists the manifest unchanged. -/
theorem update_local_version_absent_id (cfg : ConfigState) (app_id : String)
    (v : Option String)
    (h : ∀ a ∈ cfg.apps, a.id ≠ none ∧ a.id ≠ some app_id) :
    update_local_version cfg app_id v
      = .ok { apps := cfg.apps, disk := cfg.apps } := by
  simp [update_local_version, updateAppsList_absent cfg.apps app_id v h]

/-- Witness for `update_local_version_absent_id` at the one-app fixture. -/
theorem update_local_version_absent_id_witness :
    update_local_version oneAppConfig "ghost" (some "2.0.0")
      = .ok { apps := oneAppConfig.apps, disk := oneAppConfig.apps } :=
  update_local_version_absent_id oneAppConfig "ghost" (some "2.0.0")
    (by decide)

/-- A staging filesystem whose one file is locked, so `unlink` raises. -/
def lockedFs : Fs :=
  { files := [("temp/foo.rar", "abc")], locked := ["temp/foo.rar"] }

/-- C8 — counterexample. The claim asserts the cleanup helpers never raise;
`remove_file` (`src/app_updater/file_utils.py`) logs a failed deletion and
then re-raises it to its caller. -/
theorem remove_file_raises_on_locked :
    remove_file lockedFs "temp/foo.rar" = .error .osError := rfl

/-- C8 (amended) — `delete_file_if_exists` (`src/core/file_utils.py`) never
raises: it deletes when it can and otherwise logs and returns the
filesystem unchanged; `remove_file` (`src/app_updater/file_utils.py`)
re-raises the deletion failure, which happens exactly when the file exists
and its unlink fails. -/
theorem cleanup_error_behaviour (fs : Fs) (p : String) :
    delete_file_if_exists fs p =
      (if fs.pathExists p = true ∧ p ∉ fs.locked then fs.eraseFile p else fs) ∧
    (remove_file fs p = Except.error PyErr.osError ↔
      fs.pathExists p = true ∧ p ∈ fs.locked) := by
  by_cases hl : p ∈ fs.locked
  · have hc : fs.locked.contains p = true := by simpa using hl
    by_cases he : fs.pathExists p = true
    · constructor
      · simp [delete_file_if_exists, unlink, he, hc, hl]
      · simp [remove_file, unlink, he, hc, hl]
    · constructor
      · simp [delete_file_if_exists, he]
      · simp [remove_file, he]
  · have hc : fs.locked.contains p = false := by simpa using hl
    by_cases he : fs.pathExists p = true
    · constructor
      · simp [delete_file_if_exists, unlink, he, hc, hl]
      · simp [remove_file, unlink, he, hc, hl]
    · constructor
      · simp [delete_file_if_exists, he]
      · simp [remove_file, he]

/-- C1 — when the remote entry carries a non-empty expected checksum and
the downloaded file's digest differs from it, `update_app` ends with the
integrity-failure error status, returns `False`, leaves no staged file on
disk, and leaves the in-memory local manifest untouched (assuming the
staged file's deletion is not itself blocked by the OS). -/
theorem update_app_integrity_failure
    (st : AppUpdaterState) (env : UpdateEnv) (app_id : String)
    (e : RemoteApp) (exp d : String)
    (hfound : get_app_version_info st.remote app_id = some e)
    (hsha : e.sha256 = some exp)
    (hne : exp ≠ "")
    (hdl : env.download = .ok d)
    (hmis : d ≠ pyLower exp)
    (hunlocked : staged_path app_id e ∉ st.fs.locked) :
    (update_app st env app_id).1 = false ∧
    (update_app st env app_id).2.status = .error ∧
    (update_app st env app_id).2.message = "File integrity check failed" ∧
    (update_app st env app_id).2.fs.digestOf (staged_path app_id e) = none ∧
    (update_app st env app_id).2.config = st.config := by
  have hbne : (exp != "") = true := by simpa using hne
  have hveq : verify_file_integrity (st.fs.setFile (staged_path app_id e) d)
      (staged_path app_id e) exp = false := by
    simp [verify_file_integrity, calculate_sha256, Fs.digestOf,
      lookup_setFile_self, hmis]
  have hcon : (st.fs.setFile (staged_path app_id e) d).locked.contains
      (staged_path app_id e) = false := by
    simpa [locked_setFile] using hunlocked
  have hrm : remove_file (st.fs.setFile (staged_path app_id e) d)
      (staged_path app_id e)
      = .ok ((st.fs.setFile (staged_path app_id e) d).eraseFile
          (staged_path app_id e)) := by
    simp [remove_file_unlocked _ _ hcon, pathExists_setFile_self]
  simp [update_app, update_app_core, hfound, hsha, hdl, download_app_file,
    verify_and_dispatch, hbne, hveq, hrm, digestOf_eraseFile_self]

/-- Witness for `update_app_integrity_failure`: the end-to-end fixture
with a stream whose digest is `"beadfeed"` against expected `"deadbeef"`. -/
theorem update_app_integrity_failure_witness :
    ((update_app
        { fs := { files := [], locked := [] }, config := [fooLocal],
          remote := [fooRemote], status := .idle, message := "" }
        { download := .ok "beadfeed", extract_ok := true, install_ok := true }
        "foo").1 = false) ∧
    ((update_app
        { fs := { files := [], locked := [] }, config := [fooLocal],
          remote := [fooRemote], status := .idle, message := "" }
        { download := .ok "beadfeed", extract_ok := true, install_ok := true }
        "foo").2.config = [fooLocal]) := by
  have h := update_app_integrity_failure
    { fs := { files := [], locked := [] }, config := [fooLocal],
      remote := [fooRemote], status := .idle, message := "" }
    { download := .ok "beadfeed", extract_ok := true, install_ok := true }
    "foo" fooRemote "deadbeef" "beadfeed"
    (by decide) (by decide) (by decide) (by decide) (by decide) (by decide)
  exact ⟨h.1, h.2.2.2.2⟩

/-- C10 — when the lowercased remote file type is neither `"rar"` nor
`"exe"`, `update_app` (having passed the checksum gate) reports the
unsupported-file-type error, deletes the downloaded file, returns `False`,
and leaves the in-memory local manifest untouched. -/
theorem update_app_unsupported_file_type
    (st : AppUpdaterState) (env : UpdateEnv) (app_id : String)
    (e : RemoteApp) (ft d : String)
    (hfound : get_app_version_info st.remote app_id = some e)
    (hft : pyLower (e.file_type.getD "unknown") = ft)
    (hrar : ft ≠ "rar")
    (hexe : ft ≠ "exe")
    (hdl : env.download = .ok d)
    (hgate : e.sha256.getD "" = "" ∨ d = pyLower (e.sha256.getD ""))
    (hunlocked : staged_path app_id e ∉ st.fs.locked) :
    (update_app st env app_id).1 = false ∧
    (update_app st env app_id).2.status = .error ∧
    (update_app st env app_id).2.message = "Unsupported file type: " ++ ft ∧
    (update_app st env app_id).2.fs.digestOf (staged_path app_id e) = none ∧
    (update_app st env app_id).2.config = st.config := by
  have hcon : (st.fs.setFile (staged_path app_id e) d).locked.contains
      (staged_path app_id e) = false := by
    simpa [locked_setFile] using hunlocked
  have hrm : remove_file (st.fs.setFile (staged_path app_id e) d)
      (staged_path app_id e)
      = .ok ((st.fs.setFile (staged_path app_id e) d).eraseFile
          (staged_path app_id e)) := by
    simp [remove_file_unlocked _ _ hcon, pathExists_setFile_self]
  have hgate2 : (e.sha256.getD "" != "" &&
      !(verify_file_integrity (st.fs.setFile (staged_path app_id e) d)
          (staged_path app_id e) (e.sha256.getD ""))) = false := by
    rcases hgate with hempty | hmatch
    · simp [hempty]
    · simp [verify_file_integrity, calculate_sha256, Fs.digestOf,
        lookup_setFile_self, hmatch]
  have hbrar : (ft == "rar") = false := by simpa using hrar
  have hbexe : (ft == "exe") = false := by simpa using hexe
  simp [update_app, update_app_core, hfound, hft, hdl, download_app_file,
    verify_and_dispatch, hgate2, dispatch_file_type, hbrar, hbexe, hrm,
    digestOf_eraseFile_self]

/-- Remote entry with an unsupported file type, for the C10 witness. -/
def fooRemoteZip : RemoteApp :=
  { id := some "foo", name := none, version := some "1.1.0",
    file_type := some "ZIP", filename := some "foo.zip", sha256 := none }

/-- Witness for `update_app_unsupported_file_type` at a `"ZIP"`-typed
remote entry. -/
theorem update_app_unsupported_file_type_witness :
    ((update_app
        { fs := { files := [], locked := [] }, config := [fooLocal],
          remote := [fooRemoteZip], status := .idle, message := "" }
        { download := .ok "abc", extract_ok := true, install_ok := true }
        "foo").1 = false) ∧
    ((update_app
        { fs := { files := [], locked := [] }, config := [fooLocal],
          remote := [fooRemoteZip], status := .idle, message := "" }
        { download := .ok "abc", extract_ok := true, install_ok := true }
        "foo").2.message = "Unsupported file type: zip") := by
  have h := update_app_unsupported_file_type
    { fs := { files := [], locked := [] }, config := [fooLocal],
      remote := [fooRemoteZip], status := .idle, message := "" }
    { download := .ok "abc", extract_ok := true, install_ok := true }
    "foo" fooRemoteZip "zip" "abc"
    (by decide) (by decide) (by decide) (by decide) (by decide)
    (Or.inl (by decide)) (by decide)
  exact ⟨h.1, h.2.2.1⟩

/-- Remote entry of archive type with an explicit filename, used by the
partial-download counterexample. -/
def remBrar : RemoteApp :=
  { id := some "appB", name := none, version := some "2.0.0",
    file_type := some "rar", filename := some "appB.rar", sha256 := none }

/-- C4 — counterexample. The claim asserts no partial file remains after a
failed download; in `UpdateWorker.run` (`src/core/update_worker.py`) a
transport error in the middle of the stream raises out of
`_download_with_progress` into the run-level handler, which emits the
failure but deletes nothing, so the partially written staging file stays
on disk. -/
theorem worker_midstream_failure_leaves_partial_file :
    (worker_run appB remBrar
        { stream := .midFailure "abc", extract_ok := true, spawn_ok := true }
        { files := [], locked := [] }).success = false ∧
    (worker_run appB remBrar
        { stream := .midFailure "abc", extract_ok := true, spawn_ok := true }
        { files := [], locked := [] }).fs.digestOf "apps/appB.rar"
      = some "abc" := by decide

/-- C4 (amended) — both engines end a failed download in a failed terminal
result; in `AppUpdater.update_app` the drive client has already removed
the partial file before the failure reaches the pipeline (so no partial
file remains and the manifest is untouched), while in the core
`UpdateWorker` a mid-stream failure leaves the partial file in the staging
directory until the next attempt's stale-file cleanup. -/
theorem download_failure_cleanup
    (st : AppUpdaterState) (env : UpdateEnv) (app_id : String)
    (e : RemoteApp) (pd : String)
    (hfound : get_app_version_info st.remote app_id = some e)
    (hdl : env.download = .netFailure pd)
    (hunlocked : staged_path app_id e ∉ st.fs.locked)
    (a : LocalApp) (r : RemoteApp) (wenv : WorkerEnv) (fs : Fs)
    (pd2 : String)
    (hws : wenv.stream = .midFailure pd2) :
    (update_app st env app_id).1 = false ∧
    (update_app st env app_id).2.status = .error ∧
    (update_app st env app_id).2.fs.digestOf (staged_path app_id e) = none ∧
    (update_app st env app_id).2.config = st.config ∧
    (worker_run a r wenv fs).success = false := by
  have hcon : (st.fs.setFile (staged_path app_id e) pd).locked.contains
      (staged_path app_id e) = false := by
    simpa [locked_setFile] using hunlocked
  have hmem : staged_path app_id e ∉
      (st.fs.setFile (staged_path app_id e) pd).locked := by
    simpa [locked_setFile] using hunlocked
  have hul : unlink (st.fs.setFile (staged_path app_id e) pd)
      (staged_path app_id e)
      = .ok ((st.fs.setFile (staged_path app_id e) pd).eraseFile
          (staged_path app_id e)) := by
    simp [unlink, hmem]
  have hworker : (worker_run a r wenv fs).success = false := by
    cases hn : a.name with
    | none => simp [worker_run, hn]
    | some nm =>
      cases hft : r.file_type with
      | none => simp [worker_run, hn, hft]
      | some ft =>
        cases hfn : get_remote_filename r with
        | error e2 => simp [worker_run, hn, hft, hfn]
        | ok fn => simp [worker_run, hn, hft, hfn, hws]
  refine ⟨?_, ?_, ?_, ?_, hworker⟩ <;>
    simp [update_app, update_app_core, hfound, hdl, download_app_file, hul,
      digestOf_eraseFile_self]

/-- Witness for `download_failure_cleanup` at the end-to-end fixture with
a failing transport. -/
theorem download_failure_cleanup_witness :
    ((update_app
        { fs := { files := [], locked := [] }, config := [fooLocal],
          remote := [fooRemote], status := .idle, message := "" }
        { download := .netFailure "par", extract_ok := true, install_ok := true }
        "foo").1 = false) ∧
    ((update_app
        { fs := { files := [], locked := [] }, config := [fooLocal],
          remote := [fooRemote], status := .idle, message := "" }
        { download := .netFailure "par", extract_ok := true, install_ok := true }
        "foo").2.fs.digestOf (staged_path "foo" fooRemote) = none) := by
  have h := download_failure_cleanup
    { fs := { files := [], locked := [] }, config := [fooLocal],
      remote := [fooRemote], status := .idle, message := "" }
    { download := .netFailure "par", extract_ok := true, install_ok := true }
    "foo" fooRemote "par" (by decide) (by decide) (by decide)
    appB remBrar
    { stream := .midFailure "abc", extract_ok := true, spawn_ok := true }
    { files := [], locked := [] } "abc" (by decide)
  exact ⟨h.1, h.2.2.1⟩

/-- C2 — the end-to-end installer scenario: local version `"1.0.0"`,
remote entry `{id "foo", version "1.1.0", file_type "exe",
sha256 "deadbeef"}`, streamed digest `"deadbeef"`, installer spawn
succeeding. The worker reaches its successful terminal result (the
installer-started completion), and `_on_worker_finished` then commits
`"1.1.0"` into the local manifest, in memory and on disk. -/
theorem e2e_exe_update_completes_and_commits :
    (worker_run fooLocal fooRemote e2eEnv e2eInit.fs).success = true ∧
    (worker_run fooLocal fooRemote e2eEnv e2eInit.fs).message
      = "Installer for foo has been started." ∧
    (hubRun e2eInit e2eEvents).map
      (fun st => (st.config.get_app "foo").bind LocalApp.version)
      = some (some "1.1.0") ∧
    (hubRun e2eInit e2eEvents).map
      (fun st =>
        (st.config.disk.find? (fun x => x.id == some "foo")).bind
          LocalApp.version)
      = some (some "1.1.0") := by decide

/-- C9 — the code violates the claim: after `appA` and `appB` both start
updating (one session each, `appB`'s button disabled), a successful finish
of `appA` repopulates the table, recreating an enabled Update button for
the still-running `appB`; clicking it starts a second concurrent session
for `appB`. -/
theorem second_concurrent_session_same_app :
    (hubRun twoAppInit (overlapEvents.take 2)).map
      (fun st => (activeSessions st "appB", st.buttons.lookup "appB"))
      = some (1, some false) ∧
    (hubRun twoAppInit (overlapEvents.take 3)).map
      (fun st => (activeSessions st "appB", st.buttons.lookup "appB"))
      = some (1, some true) ∧
    (hubRun twoAppInit overlapEvents).map
      (fun st => activeSessions st "appB")
      = some 2 := by decide
